import Mathlib

/-!
Shallow embedding of the Student-AI retrieval-augmented chat backend
(src/backend/ingest.py, src/backend/backend.py, src/backend/api.py) and
proofs about its flag parsing, greeting routing, retrieval formatting,
error handling, batch ingestion and retry/backoff discipline.

Python string primitives (str.lower, str.strip, str.startswith, str.split,
os.path.basename) are modelled structurally over the character list of a
string so that every definition evaluates inside the kernel. Remote
collaborators (the Groq chat-completion call, the Chroma similarity search,
the image encoder, per-batch embedding outcomes) are oracles passed in as
function arguments; everything the repository itself computes is embedded.
-/

namespace StudentAI

/-- Python str.lower(): lower-case every character (ASCII-faithful). -/
def pyLower (s : String) : String :=
  String.mk (s.data.map Char.toLower)

/-- Python str.strip(): drop leading and trailing whitespace. -/
def pyStrip (s : String) : String :=
  String.mk (((s.data.dropWhile Char.isWhitespace).reverse.dropWhile
    Char.isWhitespace).reverse)

/-- Python s.startswith(g): g is a leading segment of s. -/
def pyStartsWith (s g : String) : Bool :=
  g.data.isPrefixOf s.data

/-- Helper for str.split(): accumulate maximal runs of non-whitespace
characters, dropping the separators; cur is the token being built. -/
def wsTokensAux : List Char → List Char → List (List Char)
  | [], cur => if cur.isEmpty then [] else [cur]
  | c :: cs, cur =>
    if c.isWhitespace then
      (if cur.isEmpty then wsTokensAux cs [] else cur :: wsTokensAux cs [])
    else
      wsTokensAux cs (cur ++ [c])

/-- Python str.split() with no separator: the maximal whitespace-separated
tokens of the string, empty strings never among them. -/
def pySplitWs (s : String) : List String :=
  (wsTokensAux s.data []).map (fun cs => String.mk cs)

/-- Helper for os.path.basename: the run of characters after the last slash. -/
def basenameAux : List Char → List Char → List Char
  | [], acc => acc.reverse
  | c :: cs, acc => if c = '/' then basenameAux cs [] else basenameAux cs (c :: acc)

/-- os.path.basename on POSIX paths: the component after the last slash. -/
def basename (p : String) : String :=
  String.mk (basenameAux p.data [])

/-- An embedding client configuration: the model identifier and, when the
constructor passes one, the task type. -/
structure EmbeddingConfig : Type where
  model : String
  task_type : Option String
deriving DecidableEq

/-- ingest.py lines 44-47: the embedding client the ingestion run builds its
index with, GoogleGenerativeAIEmbeddings over models/gemini-embedding-001
with task_type retrieval_document. -/
def ingestEmbeddings : EmbeddingConfig :=
  ⟨"models/gemini-embedding-001", some "retrieval_document"⟩

/-- api.py lines 37-38: the embedding client the chat endpoint loads the
persisted index with, HuggingFaceEmbeddings over
sentence-transformers/all-MiniLM-L6-v2; query strings are embedded with it. -/
def apiEmbeddings : EmbeddingConfig :=
  ⟨"sentence-transformers/all-MiniLM-L6-v2", none⟩

/-- api.py line 93: the tokens whose lower-cased form turns the RAG flag off:
str(use_rag).lower() not in ("false", "0", "null", "none", ""). -/
def falseTokens : List String := ["false", "0", "null", "none", ""]

/-- api.py line 93: rag_enabled = str(use_rag).lower() not in
("false", "0", "null", "none", ""). -/
def rag_enabled (use_rag : String) : Bool :=
  !(falseTokens.contains (pyLower use_rag))

/-- backend.py line 88: the fixed greeting/closing tokens. -/
def common_greetings : List String := ["hi", "hello", "hey", "yo", "thanks", "good morning"]

/-- backend.py lines 87-89: the greeting check of ask_gemini_multimodal.
query_lower = query.strip().lower(); the check fires when some greeting is a
leading segment of query_lower and len(query.split()) < 4. -/
def greetingOverride (query : String) : Bool :=
  (common_greetings.any (fun g => pyStartsWith (pyLower (pyStrip query)) g)) &&
    decide ((pySplitWs query).length < 4)

/-- backend.py lines 89-90: use_rag after the greeting check; the caller
flag is overridden to False exactly when the greeting check fires. -/
def effective_use_rag (query : String) (use_rag : Bool) : Bool :=
  if greetingOverride query then false else use_rag

/-- backend.py line 17: the fast text model name. -/
def TEXT_MODEL_NAME : String := "llama-3.1-8b-instant"

/-- backend.py line 18: the vision model name. -/
def VISION_MODEL_NAME : String := "meta-llama/llama-4-scout-17b-16e-instruct"

/-- A retrieved document chunk: its source metadata entry, absent when the
metadata carries none (backend.py reads it with a default), and its text. -/
structure Doc : Type where
  source : Option String
  page_content : String
deriving DecidableEq

/-- backend.py lines 69-70: os.path.basename(d.metadata.get("source",
"Unknown")) for a retrieved chunk. -/
def docSourceName (d : Doc) : String :=
  basename (d.source.getD "Unknown")

/-- backend.py lines 65-74, retrieve_context_with_sources: invoke the
retriever at k = 3; on success join the labeled blocks with blank lines and
deduplicate the source names; on any retrieval error return ("", []). The
retriever is the search oracle: the ordered top-k chunks or the raised
error. -/
def retrieve_context_with_sources
    (search : String → Nat → Except String (List Doc)) (query : String) :
    String × List String :=
  match search query 3 with
  | Except.ok docs =>
    (String.intercalate "\n\n"
      (docs.map (fun d =>
        "--- FROM DOCUMENT: " ++ docSourceName d ++ " ---\n" ++ d.page_content)),
     (docs.map (fun d => docSourceName d)).dedup)
  | Except.error _ => ("", [])

/-- backend.py lines 101-112: the RAG-mode system instruction, with the
history and the retrieved context interpolated at the end. -/
def ragSystemText (chat_history context_text : String) : String :=
  "You are an elite Academic AI Assistant specifically designed for SPPU engineering students. " ++
  "Your primary role is to assist with rigorous exam preparation, simplify complex technical concepts, and break down logic step-by-step.\n\n" ++
  "### 🎯 CORE DIRECTIVES:\n" ++
  "1. **Context First:** Always attempt to answer using the provided **CONTEXT** first. If you use the context, you MUST cite the exact source document name at the end of your points.\n" ++
  "2. **The \x27Out-of-Syllabus\x27 Fallback:** If the user\x27s query cannot be answered using the provided context, you MUST STILL answer the question using your general knowledge. However, you MUST begin your response with this exact warning: \x27⚠️ *I could not find this specific topic in your provided study materials, but based on general knowledge:*\x27\n" ++
  "3. **Study-Optimized Formatting:** Structure your answers to be highly readable for a student reviewing for exams. Use bullet points, bold key technical terms, and provide concise summaries.\n" ++
  "4. **Technical Precision:** When explaining algorithms, data structures, or engineering principles, break down the logic systematically.\n" ++
  "5. **Visual Analysis:** If an image (such as a system diagram or previous year question paper) is provided, analyze it meticulously and connect it to the user\x27s question.\n\n" ++
  "--- HISTORY ---\n" ++ chat_history ++ "\n\n" ++
  "--- CONTEXT ---\n" ++ context_text

/-- backend.py lines 115-119: the general-mode system instruction. -/
def generalSystemText (chat_history : String) : String :=
  "You are a helpful AI Assistant.\n" ++
  "Answer using general knowledge.\n" ++
  "--- HISTORY ---\n" ++ chat_history

/-- One part of the content payload sent to the chat model: an inline image
data URL or a text part (backend.py lines 122-132). -/
inductive ContentPart : Type
  | image_url : String → ContentPart
  | text : String → ContentPart
deriving DecidableEq

/-- The triple ask_gemini_multimodal returns: answer text, source list and
mode label. -/
structure ChatResult : Type where
  answer : String
  sources : List String
  mode : String
deriving DecidableEq

/-- backend.py line 146: the degraded general-text apology returned when the
provider call fails and an image is attached. -/
def visionApology : String :=
  "I\x27m sorry, my vision capabilities are currently unavailable due to server traffic. I can still answer text questions!"

/-- backend.py line 147: the apology returned with mode error when the
provider call fails and no image is attached. -/
def timeoutApology : String :=
  "Error: The AI engine timed out. Please try again."

/-- backend.py lines 77-147, ask_gemini_multimodal. The oracles: llm is the
remote chat completion (model name, system text, content payload; an error
value models the raised exception), encode is encode_image (None models a
failed encode), search is the vector-store retriever. The steps mirror the
source: engine selection on image presence, the greeting check, context and
system-prompt preparation, payload construction, and the try/except around
the provider call. -/
def ask_gemini_multimodal
    (llm : String → String → List ContentPart → Except String String)
    (encode : String → Option String)
    (search : String → Nat → Except String (List Doc))
    (query chat_history : String) (image_path : Option String)
    (use_rag : Bool) : ChatResult :=
  let current_llm : String :=
    match image_path with
    | some _ => VISION_MODEL_NAME
    | none => TEXT_MODEL_NAME
  let use_rag2 : Bool := effective_use_rag query use_rag
  let retrieved : String × List String :=
    if use_rag2 then retrieve_context_with_sources search query else ("", [])
  let context_text : String := retrieved.1
  let sources : List String := retrieved.2
  let used_mode : String := if use_rag2 then "rag" else "general"
  let system_text : String :=
    if use_rag2 then ragSystemText chat_history context_text
    else generalSystemText chat_history
  let image_parts : List ContentPart :=
    match image_path with
    | some p =>
      match encode p with
      | some b64 => [ContentPart.image_url ("data:image/jpeg;base64," ++ b64)]
      | none => []
    | none => []
  let content_payload : List ContentPart := image_parts ++ [ContentPart.text query]
  match llm current_llm system_text content_payload with
  | Except.ok resp => ⟨resp, sources, used_mode⟩
  | Except.error _ =>
    match image_path with
    | some _ => ⟨visionApology, [], "general"⟩
    | none => ⟨timeoutApology, [], "error"⟩

/-- The outcome of one insertion attempt for a batch: success, a
rate-limit-class failure (google.api_core exceptions.ResourceExhausted), or
any other exception (ingest.py lines 58-70). -/
inductive AttemptOutcome : Type
  | success : AttemptOutcome
  | rateLimit : AttemptOutcome
  | otherError : AttemptOutcome
deriving DecidableEq

/-- What one batch's retry loop did: how many attempts ran, the sleeps
performed in order (seconds), and whether the batch was inserted. -/
structure BatchOutcome : Type where
  attempts : Nat
  waits : List Nat
  committed : Bool
deriving DecidableEq

/-- ingest.py lines 57-70, the inner retry loop, driven by the outcome
oracle for this batch: for attempt in range(5): on success break; on
ResourceExhausted sleep (attempt + 1) * 10 seconds and continue; on any
other exception break. The fuel counts the loop iterations left, so fuel
plus the attempt index is always 5. -/
def runBatchAux (o : Nat → AttemptOutcome) : Nat → Nat → List Nat → BatchOutcome
  | 0, attempt, waits => ⟨attempt, waits, false⟩
  | fuel + 1, attempt, waits =>
    match o attempt with
    | AttemptOutcome.success => ⟨attempt + 1, waits, true⟩
    | AttemptOutcome.rateLimit => runBatchAux o fuel (attempt + 1) (waits ++ [(attempt + 1) * 10])
    | AttemptOutcome.otherError => ⟨attempt + 1, waits, false⟩

/-- The retry loop for one batch, started at attempt 0 with no sleeps yet. -/
def runBatch (o : Nat → AttemptOutcome) : BatchOutcome :=
  runBatchAux o 5 0 []

/-- ingest.py line 49: batch_size = 95. -/
def batch_size : Nat := 95

/-- Helper for the batch slicing loop, fuelled by the chunk count: each step
takes the next batch_size chunks and recurses on the rest, mirroring
chunks[i : i + batch_size] for i in range(0, len(chunks), batch_size). -/
def batchesGo {α : Type} : Nat → List α → List (List α)
  | _, [] => []
  | 0, _ :: _ => []
  | fuel + 1, x :: xs =>
    ((x :: xs).take batch_size) :: batchesGo fuel ((x :: xs).drop batch_size)

/-- ingest.py lines 52-53: the consecutive slices of the chunk list the
batch loop iterates over. -/
def ingestBatches {α : Type} (chunks : List α) : List (List α) :=
  batchesGo chunks.length chunks

/-- ingest.py lines 59-62: a successful insertion either creates the store
from the batch (db was None) or appends the batch to it. -/
def commitBatch {α : Type} : Option (List α) → List α → Option (List α)
  | none, batch => some batch
  | some d, batch => some (d ++ batch)

/-- ingest.py lines 52-70, the outer batch loop: every batch is attempted in
order; a batch is inserted exactly when its retry loop committed it, and the
loop proceeds to the next batch either way. The oracle gives each batch
index its attempt outcomes. -/
def ingestLoop {α : Type} (oracles : Nat → Nat → AttemptOutcome) :
    List (List α) → Nat → Option (List α) → Option (List α)
  | [], _, db => db
  | b :: bs, i, db =>
    ingestLoop oracles bs (i + 1)
      (if (runBatch (oracles i)).committed then commitBatch db b else db)

/-- ingest.py lines 38-39: text_splitter.split_documents, abstracted over
the per-page chunker: the chunks of each page, in page order. -/
def split_documents {π α : Type} (chunker : π → List α) (documents : List π) : List α :=
  documents.flatMap chunker

/-- ingest.py main (lines 16-72): any pre-existing index at DB_PATH is
removed by shutil.rmtree before the documents are scanned (lines 17-19), so
the run starts from no index regardless of preIndex; the discovered pages
are chunked and the batch loop inserts the batches into a store that starts
as None. There is no abort path: with zero documents the loop body simply
never runs. -/
def ingestMain {π α : Type} (oracles : Nat → Nat → AttemptOutcome)
    (chunker : π → List α) (preIndex : Option (List α)) (documents : List π) :
    Option (List α) :=
  ingestLoop oracles (ingestBatches (split_documents chunker documents)) 0 none

/-- A chat-completion oracle that always succeeds with a fixed answer. -/
def okLLM : String → String → List ContentPart → Except String String :=
  fun _ _ _ => Except.ok "answer"

/-- A chat-completion oracle that always fails. -/
def failLLM : String → String → List ContentPart → Except String String :=
  fun _ _ _ => Except.error "boom"

/-- An image encoder oracle that always fails to encode. -/
def noEncode : String → Option String := fun _ => none

/-- A retriever oracle that always raises. -/
def failSearch : String → Nat → Except String (List Doc) :=
  fun _ _ => Except.error "connection refused"

/-- A retriever oracle over an empty index. -/
def emptySearch : String → Nat → Except String (List Doc) :=
  fun _ _ => Except.ok []

/-- Three retrieved chunks: two with source doc1.pdf (one behind a
directory prefix) and one with no source metadata. -/
def demoDocs : List Doc :=
  [⟨some "notes/doc1.pdf", "Osmosis is the movement of water."⟩,
   ⟨some "doc1.pdf", "Diffusion moves solutes."⟩,
   ⟨none, "Energy flows."⟩]

/-- A retriever oracle that returns demoDocs. -/
def demoSearch : String → Nat → Except String (List Doc) :=
  fun _ _ => Except.ok demoDocs

/-- A batch whose first two attempts are rate-limited and whose third
succeeds. -/
def rlTwice : Nat → AttemptOutcome :=
  fun n => if n < 2 then AttemptOutcome.rateLimit else AttemptOutcome.success

/-- A batch whose every attempt raises a non-rate-limit error. -/
def hardFail : Nat → AttemptOutcome := fun _ => AttemptOutcome.otherError

/-- A batch whose every attempt is rate-limited. -/
def allRateLimit : Nat → AttemptOutcome := fun _ => AttemptOutcome.rateLimit

/-- An ingestion run in which every insertion attempt succeeds. -/
def allSuccessOracle : Nat → Nat → AttemptOutcome :=
  fun _ _ => AttemptOutcome.success

/-- An ingestion run whose every batch fails with a non-rate-limit error. -/
def hardFailOracle : Nat → Nat → AttemptOutcome := fun _ => hardFail

/-! ## Supporting lemmas -/

/-- Retry-loop characterisation when attempts below k are rate-limited and
attempt k succeeds: starting at attempt a with the sleeps of the first a
failures already performed, the loop ends after attempt k with the sleeps
(n + 1) * 10 for n below k, committed. -/
theorem runBatchAux_rl_success (o : Nat → AttemptOutcome) (k : Nat)
    (hk : k < 5) (hrl : ∀ j, j < k → o j = AttemptOutcome.rateLimit)
    (hs : o k = AttemptOutcome.success) :
    ∀ (fuel a : Nat), a + fuel = 5 → a ≤ k →
      runBatchAux o fuel a ((List.range a).map (fun n => (n + 1) * 10)) =
        ⟨k + 1, (List.range k).map (fun n => (n + 1) * 10), true⟩ := by
  intro fuel
  induction fuel with
  | zero =>
    intro a hfa hak
    omega
  | succ m ih =>
    intro a hfa hak
    rcases Nat.lt_or_ge a k with hlt | hge
    · have hra := hrl a hlt
      have hstep : runBatchAux o (m + 1) a ((List.range a).map (fun n => (n + 1) * 10)) =
          runBatchAux o m (a + 1) (((List.range a).map (fun n => (n + 1) * 10)) ++ [(a + 1) * 10]) := by
        simp [runBatchAux, hra]
      rw [hstep]
      have harr : ((List.range a).map (fun n => (n + 1) * 10)) ++ [(a + 1) * 10] =
          (List.range (a + 1)).map (fun n => (n + 1) * 10) := by
        rw [List.range_succ, List.map_append]
        simp
      rw [harr]
      exact ih (a + 1) (by omega) (by omega)
    · have hak' : a = k := Nat.le_antisymm hak hge
      subst hak'
      simp [runBatchAux, hs]

/-- Retry-loop characterisation when every attempt is rate-limited: the loop
exhausts its five attempts, sleeping after each, and does not commit. -/
theorem runBatchAux_all_rl (o : Nat → AttemptOutcome)
    (hall : ∀ j, j < 5 → o j = AttemptOutcome.rateLimit) :
    ∀ (fuel a : Nat), a + fuel = 5 →
      runBatchAux o fuel a ((List.range a).map (fun n => (n + 1) * 10)) =
        ⟨5, (List.range 5).map (fun n => (n + 1) * 10), false⟩ := by
  intro fuel
  induction fuel with
  | zero =>
    intro a hfa
    have ha : a = 5 := by omega
    subst ha
    simp [runBatchAux]
  | succ m ih =>
    intro a hfa
    have hra := hall a (by omega)
    have hstep : runBatchAux o (m + 1) a ((List.range a).map (fun n => (n + 1) * 10)) =
        runBatchAux o m (a + 1) (((List.range a).map (fun n => (n + 1) * 10)) ++ [(a + 1) * 10]) := by
      simp [runBatchAux, hra]
    rw [hstep]
    have harr : ((List.range a).map (fun n => (n + 1) * 10)) ++ [(a + 1) * 10] =
        (List.range (a + 1)).map (fun n => (n + 1) * 10) := by
      rw [List.range_succ, List.map_append]
      simp
    rw [harr]
    exact ih (a + 1) (by omega)

/-- Concatenating the batch slices gives back the chunk list whenever the
fuel covers its length. -/
theorem batchesGo_flatten {α : Type} : ∀ (fuel : Nat) (l : List α),
    l.length ≤ fuel → (batchesGo fuel l).flatten = l := by
  intro fuel
  induction fuel with
  | zero =>
    intro l hl
    cases l with
    | nil => simp [batchesGo]
    | cons x xs => simp [List.length_cons] at hl
  | succ m ih =>
    intro l hl
    cases l with
    | nil => simp [batchesGo]
    | cons x xs =>
      have hd : ((x :: xs).drop batch_size).length ≤ m := by
        rw [List.length_drop]
        simp only [batch_size, List.length_cons] at hl ⊢
        omega
      simp only [batchesGo, List.flatten_cons]
      rw [ih ((x :: xs).drop batch_size) hd]
      exact List.take_append_drop batch_size (x :: xs)

/-- Every batch slice has at most batch_size chunks. -/
theorem batchesGo_size {α : Type} : ∀ (fuel : Nat) (l b : List α),
    b ∈ batchesGo fuel l → b.length ≤ batch_size := by
  intro fuel
  induction fuel with
  | zero =>
    intro l b hb
    cases l with
    | nil => simp [batchesGo] at hb
    | cons x xs => simp [batchesGo] at hb
  | succ m ih =>
    intro l b hb
    cases l with
    | nil => simp [batchesGo] at hb
    | cons x xs =>
      simp only [batchesGo, List.mem_cons] at hb
      rcases hb with hb | hb
      · subst hb
        exact List.length_take_le _ _
      · exact ih _ _ hb

/-! ## The claims -/

/-- C1: the claim states that the ingestion path and the query-serving path
use one and the same embedding model. In the code they do not: the ingestion
run (ingest.py lines 44-47) embeds chunks with Google
models/gemini-embedding-001, while the chat endpoint (api.py lines 37-38)
opens the same persisted index with HuggingFace
sentence-transformers/all-MiniLM-L6-v2 and embeds every query with it. This
theorem records the divergence the code exhibits against the spec's stated
invariant. -/
theorem C1_embedding_models_differ :
    ingestEmbeddings.model ≠ apiEmbeddings.model ∧
    ingestEmbeddings.model = "models/gemini-embedding-001" ∧
    apiEmbeddings.model = "sentence-transformers/all-MiniLM-L6-v2" := by
  refine ⟨by decide, rfl, rfl⟩

/-- C2 counterexample: a chat request with RAG effectively enabled (a
non-greeting query, caller flag true) whose retrieval call raises is
answered with mode label rag, not general, refuting the claim's mode
clause at this concrete input. -/
theorem C2_counterexample :
    failSearch "Explain the OSI model layers" 3 = Except.error "connection refused" ∧
    (ask_gemini_multimodal okLLM noEncode failSearch
      "Explain the OSI model layers" "" none true).mode = "rag" ∧
    ("rag" : String) ≠ "general" := by
  refine ⟨rfl, rfl, by decide⟩

/-- C2 (amended): for every chat request with RAG effectively enabled whose
retrieval call fails — with or without an attached image — the request
degrades gracefully: the answer is produced from the RAG system prompt
built with an empty context (the hypothesis pins the provider's reply to
calls carrying exactly that empty-context prompt, whichever model and
payload the request selects), the source list is empty, but the mode label
remains rag (not general). -/
theorem C2_retrieval_failure_keeps_rag_mode
    (llm : String → String → List ContentPart → Except String String)
    (encode : String → Option String)
    (search : String → Nat → Except String (List Doc))
    (query chat_history e resp : String) (image_path : Option String)
    (hng : greetingOverride query = false)
    (hs : search query 3 = Except.error e)
    (hllm : ∀ m p, llm m (ragSystemText chat_history "") p = Except.ok resp) :
    ask_gemini_multimodal llm encode search query chat_history image_path true =
      ⟨resp, [], "rag"⟩ := by
  cases image_path with
  | none =>
    simp [ask_gemini_multimodal, effective_use_rag, hng, retrieve_context_with_sources, hs, hllm]
  | some p =>
    simp [ask_gemini_multimodal, effective_use_rag, hng, retrieve_context_with_sources, hs, hllm]

/-- C2 witness: the amended statement at a concrete failing retriever, once
without and once with an attached image. -/
theorem C2_witness :
    ask_gemini_multimodal okLLM noEncode failSearch
      "Explain the OSI model layers" "" none true = ⟨"answer", [], "rag"⟩ ∧
    ask_gemini_multimodal okLLM noEncode failSearch
      "Explain the OSI model layers" "" (some "img.jpg") true = ⟨"answer", [], "rag"⟩ := by
  constructor
  · exact C2_retrieval_failure_keeps_rag_mode okLLM noEncode failSearch
      "Explain the OSI model layers" "" "connection refused" "answer" none
      (by decide) rfl (fun m p => rfl)
  · exact C2_retrieval_failure_keeps_rag_mode okLLM noEncode failSearch
      "Explain the OSI model layers" "" "connection refused" "answer" (some "img.jpg")
      (by decide) rfl (fun m p => rfl)

/-- C3 counterexample: an ingestion run that discovers zero documents while
an index from an earlier run exists. The run ends with no index at all
(main removed the old database before scanning and built nothing), so the
pre-run index state is not preserved, refuting the claim at this input. -/
theorem C3_counterexample :
    ingestMain allSuccessOracle (fun p : Nat => [p]) (some [7]) ([] : List Nat) = none ∧
    (some [7] : Option (List Nat)) ≠ none := by
  refine ⟨rfl, by simp⟩

/-- C3 (amended): if an ingestion run discovers zero documents it creates no
new index entries (the batch loop never runs and the store stays None), but
it does not abort and it does not leave the prior index state unchanged:
any pre-existing persisted index was already deleted at the start of the
run, so the run always ends with no index, whatever existed before. -/
theorem C3_zero_documents_leaves_no_index {π α : Type}
    (oracles : Nat → Nat → AttemptOutcome) (chunker : π → List α)
    (preIndex : Option (List α)) :
    ingestMain oracles chunker preIndex ([] : List π) = none := rfl

/-- C4: for every batch, rate-limit failures make the controller retry the
same batch: with attempts below k rate-limited and attempt k succeeding
(k < 5), the batch commits on attempt k + 1 after sleeping (n + 1) * 10
seconds after the n-th failure — 10 s before the second attempt, 20 s
before the third; with every attempt rate-limited the loop stops after 5
attempts without committing; a failure of any other class abandons the
batch after that attempt with no sleep; and an abandoned batch leaves the
store untouched while the run continues with the next batch instead of
aborting. -/
theorem C4_retry_and_abandon {α : Type} (o oerr oall : Nat → AttemptOutcome) (k : Nat)
    (oracles : Nat → Nat → AttemptOutcome) (i : Nat) (b : List α) (bs : List (List α))
    (db : Option (List α))
    (hk : k < 5)
    (hrl : ∀ j, j < k → o j = AttemptOutcome.rateLimit)
    (hsucc : o k = AttemptOutcome.success)
    (hall : ∀ j, j < 5 → oall j = AttemptOutcome.rateLimit)
    (herr : oerr 0 = AttemptOutcome.otherError)
    (habandon : (runBatch (oracles i)).committed = false) :
    runBatch o = ⟨k + 1, (List.range k).map (fun n => (n + 1) * 10), true⟩ ∧
    runBatch oall = ⟨5, (List.range 5).map (fun n => (n + 1) * 10), false⟩ ∧
    runBatch oerr = ⟨1, [], false⟩ ∧
    ingestLoop oracles (b :: bs) i db = ingestLoop oracles bs (i + 1) db := by
  refine ⟨?_, ?_, ?_, ?_⟩
  · have h := runBatchAux_rl_success o k hk hrl hsucc 5 0 rfl (Nat.zero_le k)
    simpa [runBatch] using h
  · have h := runBatchAux_all_rl oall hall 5 0 rfl
    simpa [runBatch] using h
  · simp [runBatch, runBatchAux, herr]
  · simp [ingestLoop, habandon]

/-- C4 witness: a batch rate-limited on its first two attempts commits on
the third after sleeping 10 s then 20 s; a batch rate-limited throughout
stops after 5 attempts; a batch with a non-rate-limit error is abandoned at
once; and a run whose first batch is abandoned still proceeds to the next
batch with the store untouched. -/
theorem C4_witness :
    runBatch rlTwice = ⟨3, (List.range 2).map (fun n => (n + 1) * 10), true⟩ ∧
    runBatch allRateLimit = ⟨5, (List.range 5).map (fun n => (n + 1) * 10), false⟩ ∧
    runBatch hardFail = ⟨1, [], false⟩ ∧
    ingestLoop hardFailOracle ([0] :: [[1]]) 0 (none : Option (List Nat)) =
      ingestLoop hardFailOracle [[1]] 1 none := by
  exact C4_retry_and_abandon rlTwice hardFail allRateLimit 2 hardFailOracle 0 [0] [[1]] none
    (by decide) (by decide) (by decide) (by decide) (by decide) (by decide)

/-- C5: the effective RAG flag is off exactly when the caller flag string,
lower-cased (the code's case-insensitive comparison), is one of false, 0,
null, none or the empty string; every other value turns it on. -/
theorem C5_flag_parsing (s : String) :
    rag_enabled s = false ↔ pyLower s ∈ falseTokens := by
  simp [rag_enabled]

/-- C6: whenever the query (stripped, lower-cased) begins with one of the
greeting/closing tokens and splits into fewer than 4 whitespace-separated
tokens, the effective RAG flag is false regardless of the caller flag. -/
theorem C6_greeting_forces_rag_off (query : String) (u : Bool)
    (hstart : ∃ g ∈ common_greetings, pyStartsWith (pyLower (pyStrip query)) g = true)
    (hlen : (pySplitWs query).length < 4) :
    effective_use_rag query u = false := by
  have hg : greetingOverride query = true := by
    rcases hstart with ⟨g, hgmem, hgpre⟩
    simp only [greetingOverride, Bool.and_eq_true, List.any_eq_true, decide_eq_true_eq]
    exact ⟨⟨g, hgmem, hgpre⟩, hlen⟩
  simp [effective_use_rag, hg]

/-- C6 witness: the query hi with the caller requesting RAG. -/
theorem C6_witness : effective_use_rag "hi" true = false := by
  exact C6_greeting_forces_rag_off "hi" true (by decide) (by decide)

/-- C7: whenever the remote chat-completion call fails, ask_gemini_multimodal
returns normally (it never re-raises): with no image attached it returns the
fixed timeout apology with an empty source list and mode error; with an
image attached it returns the degraded general-text vision apology with an
empty source list and mode general. -/
theorem C7_provider_failure_absorbed
    (llm : String → String → List ContentPart → Except String String)
    (encode : String → Option String)
    (search : String → Nat → Except String (List Doc))
    (query chat_history : String) (image_path : Option String) (use_rag : Bool)
    (hfail : ∀ m s p, ∃ e, llm m s p = Except.error e) :
    ask_gemini_multimodal llm encode search query chat_history image_path use_rag =
      match image_path with
      | some _ => ⟨visionApology, [], "general"⟩
      | none => ⟨timeoutApology, [], "error"⟩ := by
  cases image_path with
  | none =>
    simp only [ask_gemini_multimodal]
    obtain ⟨e, he⟩ := hfail TEXT_MODEL_NAME _ _
    rw [he]
  | some p =>
    simp only [ask_gemini_multimodal]
    obtain ⟨e, he⟩ := hfail VISION_MODEL_NAME _ _
    rw [he]

/-- C7 witness: an always-failing provider, once without and once with an
image attached. -/
theorem C7_witness :
    ask_gemini_multimodal failLLM noEncode emptySearch "q" "" none true =
      ⟨timeoutApology, [], "error"⟩ ∧
    ask_gemini_multimodal failLLM noEncode emptySearch "q" "" (some "img.jpg") true =
      ⟨visionApology, [], "general"⟩ := by
  constructor
  · exact C7_provider_failure_absorbed failLLM noEncode emptySearch "q" "" none true
      (fun m s p => ⟨"boom", rfl⟩)
  · exact C7_provider_failure_absorbed failLLM noEncode emptySearch "q" "" (some "img.jpg") true
      (fun m s p => ⟨"boom", rfl⟩)

/-- C8: whenever the retrieval backend raises, retrieve_context_with_sources
returns the empty context string and the empty source list instead of
propagating the failure. -/
theorem C8_retrieval_error_absorbed
    (search : String → Nat → Except String (List Doc)) (query e : String)
    (h : search query 3 = Except.error e) :
    retrieve_context_with_sources search query = ("", []) := by
  simp [retrieve_context_with_sources, h]

/-- C8 witness: a concrete raising retriever. -/
theorem C8_witness :
    retrieve_context_with_sources failSearch "What is osmosis?" = ("", []) :=
  C8_retrieval_error_absorbed failSearch "What is osmosis?" "connection refused" rfl

/-- C9: on a successful retrieval at the fixed k = 3, the context is each
retrieved chunk rendered as the block FROM DOCUMENT label, a newline, then
the chunk text, joined in the retriever's similarity-descending order; the
returned sources carry no duplicates and hold exactly the source filenames
of the retrieved chunks. -/
theorem C9_retrieval_format
    (search : String → Nat → Except String (List Doc)) (query : String) (docs : List Doc)
    (h : search query 3 = Except.ok docs) :
    (retrieve_context_with_sources search query).1 =
      String.intercalate "\n\n"
        (docs.map (fun d =>
          "--- FROM DOCUMENT: " ++ docSourceName d ++ " ---\n" ++ d.page_content)) ∧
    (retrieve_context_with_sources search query).2.Nodup ∧
    (∀ s, s ∈ (retrieve_context_with_sources search query).2 ↔
      s ∈ docs.map (fun d => docSourceName d)) := by
  refine ⟨?_, ?_, ?_⟩
  · simp [retrieve_context_with_sources, h]
  · simp only [retrieve_context_with_sources, h]
    exact List.nodup_dedup _
  · intro s
    simp only [retrieve_context_with_sources, h]
    exact List.mem_dedup

/-- C9 witness: the retriever returning demoDocs, two of whose chunks share
the source filename doc1.pdf. -/
theorem C9_witness :
    (retrieve_context_with_sources demoSearch "What is osmosis?").1 =
      String.intercalate "\n\n"
        (demoDocs.map (fun d =>
          "--- FROM DOCUMENT: " ++ docSourceName d ++ " ---\n" ++ d.page_content)) ∧
    (retrieve_context_with_sources demoSearch "What is osmosis?").2.Nodup := by
  have h := C9_retrieval_format demoSearch "What is osmosis?" demoDocs rfl
  exact ⟨h.1, h.2.1⟩

/-- C10: the batch loop partitions the chunk sequence into consecutive
batches of at most 95 chunks: concatenating the batches in order gives back
exactly the original chunk sequence, so no chunk is skipped and none is
duplicated, and every batch respects the 95-chunk cap. -/
theorem C10_batch_partition {α : Type} (chunks : List α) :
    (ingestBatches chunks).flatten = chunks ∧
    ∀ b ∈ ingestBatches chunks, b.length ≤ 95 := by
  constructor
  · exact batchesGo_flatten chunks.length chunks (Nat.le_refl _)
  · intro b hb
    have h := batchesGo_size chunks.length chunks b hb
    simpa [batch_size] using h

end StudentAI
